import Mathlib

/-!
Verification of the view-state and coordinate-transform engine of the
WorldMap widget (src/script.js), shallowly embedded in Lean 4.

JavaScript numbers are modelled as rationals (`ℚ`): every operation the
embedded code performs (addition, multiplication, division, comparison,
min/max clamping) is exact on the inputs the claims quantify over, and
`Math.max`/`Math.min` clamping is idempotent in IEEE arithmetic exactly as
it is here.  JS objects used as string-keyed dictionaries are modelled as
association lists over their own properties.  A JS expression that can
throw a `TypeError` is modelled as an `Option`-valued function returning
`none` at the throwing input.
-/

namespace WorldMap

/-- A d3 zoom transform: `{x, y, k}` — translation and uniform scale.
`d3.zoomIdentity.translate(x, y).scale(k)` produces exactly this triple. -/
structure Transform where
  x : ℚ
  y : ℚ
  k : ℚ
deriving DecidableEq, Repr

/-- `constrainTransform(transform)` from src/script.js lines 694-723.
`width`/`height` are the bounding rect of the svg; the scale `k` passes
through untouched, translation is forced to `(0,0)` at `k ≤ 1.05` and
otherwise clamped so 20% of the viewport stays visible per axis. -/
def constrainTransform (width height : ℚ) (t : Transform) : Transform :=
  let mapWidth := width * t.k
  let mapHeight := height * t.k
  if t.k ≤ 1.05 then
    { x := 0, y := 0, k := t.k }
  else
    let minX := -(mapWidth - width * 0.2)
    let maxX := width * 0.2
    let minY := -(mapHeight - height * 0.2)
    let maxY := height * 0.2
    { x := max minX (min maxX t.x), y := max minY (min maxY t.y), k := t.k }

/-- `Math.max(lo, Math.min(hi, ·))` applied twice equals applied once,
whatever the order of `lo` and `hi`. -/
theorem max_min_clamp_idem (lo hi v : ℚ) :
    max lo (min hi (max lo (min hi v))) = max lo (min hi v) := by
  simp only [max_def, min_def]
  split_ifs <;> first | rfl | linarith

/-- Claim C1: the transform clamp is idempotent — for every transform `t`
and viewport size `(w, h)`, `constrainTransform` applied twice equals
`constrainTransform` applied once. -/
theorem constrainTransform_idem (w h : ℚ) (t : Transform) :
    constrainTransform w h (constrainTransform w h t) = constrainTransform w h t := by
  unfold constrainTransform
  by_cases hk : t.k ≤ 1.05
  · simp [hk]
  · simp only [if_neg hk]
    simp only [if_neg hk, Transform.mk.injEq]
    exact ⟨max_min_clamp_idem _ _ _, max_min_clamp_idem _ _ _, trivial⟩

/-- Claim C2: whenever the input scale is at most `1.05` (`minScale + ε`
with `minScale = 1`, `ε = 0.05`), the clamped transform has
`translateX = 0` and `translateY = 0`, regardless of the requested pan. -/
theorem constrainTransform_centers_at_min_scale (w h : ℚ) (t : Transform)
    (hk : t.k ≤ 1.05) :
    (constrainTransform w h t).x = 0 ∧ (constrainTransform w h t).y = 0 := by
  unfold constrainTransform
  simp [hk]

/-- Witness for C2 at the concrete transform `(x, y, k) = (37, -12, 1)`
in a `800 × 600` viewport. -/
theorem constrainTransform_centers_at_min_scale_witness :
    (1 : ℚ) ≤ 1.05 ∧
      ((constrainTransform 800 600 ⟨37, -12, 1⟩).x = 0 ∧
        (constrainTransform 800 600 ⟨37, -12, 1⟩).y = 0) :=
  ⟨by norm_num, constrainTransform_centers_at_min_scale 800 600 ⟨37, -12, 1⟩ (by norm_num)⟩

/-- Counterexample to claim C8: `constrainTransform` does not re-clamp the
scale.  Feeding it scale `10` (outside `[1, 8]`) returns scale `10`. -/
theorem constrainTransform_no_scale_clamp_cex :
    (constrainTransform 800 600 ⟨0, 0, 10⟩).k = 10 ∧
      ¬ (constrainTransform 800 600 ⟨0, 0, 10⟩).k ≤ 8 := by
  constructor
  · unfold constrainTransform; norm_num
  · unfold constrainTransform; norm_num

/-- Claim C8 amended: `constrainTransform` passes the scale of its input
through unchanged for every input transform; the only scale clamping to
`[1, 8]` in the program is the `scaleExtent([1, 8])` on the upstream d3
zoom behaviour. -/
theorem constrainTransform_preserves_scale (w h : ℚ) (t : Transform) :
    (constrainTransform w h t).k = t.k := by
  unfold constrainTransform
  by_cases hk : t.k ≤ 1.05 <;> simp [hk]

/-- `transform.translate(x, y)` of a d3 zoom transform:
`{k, x: this.x + this.k * x, y: this.y + this.k * y}`. -/
def Transform.translateBy (t : Transform) (dx dy : ℚ) : Transform :=
  { x := t.x + t.k * dx, y := t.y + t.k * dy, k := t.k }

/-- The mutable camera-follow state of the `WorldMap` instance:
last sampled mouse position, current smoothed camera offset, the base
zoom/pan transform, and the two tunables. -/
structure CameraState where
  mouseX : ℚ
  mouseY : ℚ
  offsetX : ℚ
  offsetY : ℚ
  base : Transform
  followIntensity : ℚ
  smoothness : ℚ
deriving DecidableEq, Repr

/-- The `effectiveIntensity` local of `updateCameraPosition`
(src/script.js lines 662-666): forced to `0` when the base transform's
scale is at most `1.05`. -/
def effectiveIntensity (s : CameraState) : ℚ :=
  if s.base.k ≤ 1.05 then 0 else s.followIntensity

/-- `targetOffsetX` of `updateCameraPosition` (line 669):
`-normalizedX * effectiveIntensity * rect.width`, with
`normalizedX = (mousePos.x - centerX) / centerX` and `centerX = width/2`. -/
def targetOffsetX (s : CameraState) (width : ℚ) : ℚ :=
  -((s.mouseX - width / 2) / (width / 2)) * effectiveIntensity s * width

/-- `targetOffsetY` of `updateCameraPosition` (line 670), same shape on
the vertical axis. -/
def targetOffsetY (s : CameraState) (height : ℚ) : ℚ :=
  -((s.mouseY - height / 2) / (height / 2)) * effectiveIntensity s * height

/-- `applyCameraTransform()` (src/script.js lines 680-692): compose the
base transform with the camera offset scaled by `1/k`, clamp, and emit
the result for the renderer. -/
def applyCameraTransform (s : CameraState) (width height : ℚ) : Transform :=
  constrainTransform width height
    (s.base.translateBy (s.offsetX / s.base.k) (s.offsetY / s.base.k))

/-- One tick of `updateCameraPosition()` (src/script.js lines 652-678):
recompute the target offset, move the smoothed offset a `smoothness`
fraction toward it, and emit the clamped combined transform.  Returns the
updated state together with the emitted transform. -/
def updateCameraPosition (s : CameraState) (width height : ℚ) : CameraState × Transform :=
  let tX := targetOffsetX s width
  let tY := targetOffsetY s height
  let s' := { s with
    offsetX := s.offsetX + (tX - s.offsetX) * s.smoothness,
    offsetY := s.offsetY + (tY - s.offsetY) * s.smoothness }
  (s', applyCameraTransform s' width height)

/-- Claim C6: when the base transform's scale is at most `1.05`
(`minScale + 0.05`), the tick forces the effective follow intensity to
`0`, and the emitted clamped combined transform equals the clamp of the
bare base transform — translation `(0, 0)` — whatever the pointer
position and stored offset are. -/
theorem updateCameraPosition_locks_at_min_scale (s : CameraState) (w h : ℚ)
    (hk : s.base.k ≤ 1.05) :
    effectiveIntensity s = 0 ∧
      (updateCameraPosition s w h).2 = constrainTransform w h s.base ∧
      ((updateCameraPosition s w h).2).x = 0 ∧
      ((updateCameraPosition s w h).2).y = 0 := by
  refine ⟨if_pos hk, ?_, ?_, ?_⟩ <;>
    simp [updateCameraPosition, applyCameraTransform, Transform.translateBy,
      constrainTransform, hk]

/-- A concrete camera state at rest zoom (`base.k = 1`), pointer far off
center and a nonzero stored offset. -/
def restCamera : CameraState :=
  { mouseX := 77, mouseY := 13, offsetX := 5, offsetY := -6,
    base := ⟨3, 4, 1⟩, followIntensity := 0.02, smoothness := 0.1 }

/-- Witness for C6 at `restCamera` in a `200 × 100` viewport. -/
theorem updateCameraPosition_locks_at_min_scale_witness :
    restCamera.base.k ≤ 1.05 ∧
      (effectiveIntensity restCamera = 0 ∧
        (updateCameraPosition restCamera 200 100).2 =
          constrainTransform 200 100 restCamera.base ∧
        ((updateCameraPosition restCamera 200 100).2).x = 0 ∧
        ((updateCameraPosition restCamera 200 100).2).y = 0) :=
  ⟨by norm_num [restCamera],
    updateCameraPosition_locks_at_min_scale restCamera 200 100 (by norm_num [restCamera])⟩

/-- A concrete camera state zoomed in (`base.k = 4`, the claim's own
example) with the pointer at the bottom-right viewport corner of a
`100 × 100` viewport. -/
def cornerCamera : CameraState :=
  { mouseX := 100, mouseY := 100, offsetX := 0, offsetY := 0,
    base := ⟨0, 0, 4⟩, followIntensity := 0.02, smoothness := 0.1 }

/-- Counterexample to claim C7: with the pointer at the corner of a
`100 × 100` viewport, `base.k = 4` and `followIntensity = 0.02`, the
target offset per axis is `-0.02 * 100 = -2` — the full viewport extent
times the intensity — not `-followIntensity * halfExtent = -1` as the
claim states. -/
theorem targetOffset_corner_cex :
    targetOffsetX cornerCamera 100 = -2 ∧
      targetOffsetY cornerCamera 100 = -2 ∧
      targetOffsetX cornerCamera 100 ≠ -(cornerCamera.followIntensity * (100 / 2)) := by
  refine ⟨?_, ?_, ?_⟩ <;>
    norm_num [targetOffsetX, targetOffsetY, effectiveIntensity, cornerCamera]

/-- Claim C7 amended: above the rest-zoom threshold the per-axis target
offset is `-normalized * followIntensity * viewportExtent` where the
extent is the FULL viewport width/height; at the viewport center it is
`0`, and at a viewport corner it is `-followIntensity * extent` per axis
(twice the claim's `-followIntensity * halfExtent`). -/
theorem targetOffset_formula (s : CameraState) (w h : ℚ)
    (hk : ¬ s.base.k ≤ 1.05) :
    targetOffsetX s w = -((s.mouseX - w / 2) / (w / 2)) * s.followIntensity * w ∧
      targetOffsetY s h = -((s.mouseY - h / 2) / (h / 2)) * s.followIntensity * h ∧
      (s.mouseX = w / 2 → targetOffsetX s w = 0) ∧
      (s.mouseY = h / 2 → targetOffsetY s h = 0) ∧
      (w ≠ 0 → s.mouseX = w → targetOffsetX s w = -(s.followIntensity * w)) ∧
      (h ≠ 0 → s.mouseY = h → targetOffsetY s h = -(s.followIntensity * h)) := by
  have heff : effectiveIntensity s = s.followIntensity := if_neg hk
  refine ⟨by rw [targetOffsetX, heff], by rw [targetOffsetY, heff], ?_, ?_, ?_, ?_⟩
  · intro hc; simp [targetOffsetX, heff, hc]
  · intro hc; simp [targetOffsetY, heff, hc]
  · intro hw hc
    have h2 : w / 2 ≠ 0 := div_ne_zero hw two_ne_zero
    rw [targetOffsetX, heff, hc, show w - w / 2 = w / 2 by ring, div_self h2]
    ring
  · intro hh hc
    have h2 : h / 2 ≠ 0 := div_ne_zero hh two_ne_zero
    rw [targetOffsetY, heff, hc, show h - h / 2 = h / 2 by ring, div_self h2]
    ring

/-- Witness for the amended C7 at `cornerCamera`: the corner target
offset equals `-followIntensity * fullExtent`. -/
theorem targetOffset_formula_witness :
    ¬ cornerCamera.base.k ≤ 1.05 ∧
      targetOffsetX cornerCamera 100 = -(cornerCamera.followIntensity * 100) :=
  ⟨by norm_num [cornerCamera],
    (targetOffset_formula cornerCamera 100 100
        (by norm_num [cornerCamera])).2.2.2.2.1 (by norm_num) (by norm_num [cornerCamera])⟩

/-- The `properties` bag of a geographic feature, restricted to the six
fields `getCountryName` inspects.  `none` models an absent property; JS
falsiness of an empty string is handled by `truthyStr`. -/
structure FeatureProps where
  NAME : Option String
  NAME_EN : Option String
  NAME_LONG : Option String
  ADMIN : Option String
  sovereignt : Option String
  name : Option String
deriving DecidableEq, Repr

/-- JS truthiness of an optional string property: absent and `""` are
falsy, everything else is kept. -/
def truthyStr (o : Option String) : Option String :=
  match o with
  | some s => if s = "" then none else some s
  | none => none

/-- `getCountryName(d)` (src/script.js lines 269-278): the `||` chain
`NAME || NAME_EN || NAME_LONG || ADMIN || sovereignt || name || "Unknown"`. -/
def getCountryName (p : FeatureProps) : String :=
  match truthyStr p.NAME with
  | some s => s
  | none =>
    match truthyStr p.NAME_EN with
    | some s => s
    | none =>
      match truthyStr p.NAME_LONG with
      | some s => s
      | none =>
        match truthyStr p.ADMIN with
        | some s => s
        | none =>
          match truthyStr p.sovereignt with
          | some s => s
          | none =>
            match truthyStr p.name with
            | some s => s
            | none => "Unknown"

/-- Modelled from the spec (§4.1 / §8.3): resolution as "the first
non-empty value of the fixed priority list, else the `\x7bUnknown\x7d`
sentinel", stated independently of the source's `||` chain for the
refinement comparison. -/
def resolveSpec (p : FeatureProps) : String :=
  (([p.NAME, p.NAME_EN, p.NAME_LONG, p.ADMIN, p.sovereignt, p.name].findSome?
      truthyStr)).getD "Unknown"

/-- Claim C5: `getCountryName` returns the first non-empty property in
the fixed order NAME, NAME_EN, NAME_LONG, ADMIN, sovereignt, name, and
`"Unknown"` when none is present; in particular `{NAME: "France"}`
resolves to `"France"`, `{ADMIN: "Brazil"}` with no NAME fields to
`"Brazil"`, and `{}` to `"Unknown"`. -/
theorem getCountryName_priority_order :
    (∀ p : FeatureProps, getCountryName p = resolveSpec p) ∧
      getCountryName ⟨some "France", none, none, none, none, none⟩ = "France" ∧
      getCountryName ⟨none, none, none, some "Brazil", none, none⟩ = "Brazil" ∧
      getCountryName ⟨none, none, none, none, none, none⟩ = "Unknown" := by
  refine ⟨fun p => ?_, by decide, by decide, by decide⟩
  unfold getCountryName resolveSpec
  cases h1 : truthyStr p.NAME <;> simp [h1, List.findSome?_cons] <;>
    cases h2 : truthyStr p.NAME_EN <;> simp [h2, List.findSome?_cons] <;>
      cases h3 : truthyStr p.NAME_LONG <;> simp [h3, List.findSome?_cons] <;>
        cases h4 : truthyStr p.ADMIN <;> simp [h4, List.findSome?_cons] <;>
          cases h5 : truthyStr p.sovereignt <;> simp [h5, List.findSome?_cons] <;>
            cases h6 : truthyStr p.name <;> simp [h6, List.findSome?_cons]

/-- One per-country compliance record, with the fields built by the data
loaders (lines 146-155).  Absent / falsy fields are `none`; in
particular `complianceStatus = none` models both a missing and an empty
status. -/
structure ComplianceRecord where
  cybersecurityStandard : Option String
  complianceStatus : Option String
  unitsInCountry : Option String
  complianceScore : Option String
  certifications : List String
  lastAuditDate : Option String
deriving DecidableEq, Repr

/-- `this.cybersecurityData`: a string-keyed dictionary of records,
modelled by its own properties as an association list. -/
abbrev CyberData := List (String × ComplianceRecord)

/-- One compliance category (`color`, `label`, `description`). -/
structure ComplianceCategory where
  color : String
  label : String
  description : String
deriving DecidableEq, Repr

/-- `this.complianceCategories`, keyed by status id. -/
abbrev Categories := List (String × ComplianceCategory)

/-- The static `variations` alias table of `getCybersecurityData`
(src/script.js lines 289-305). -/
def variations : List (String × String) :=
  [("United States of America", "United States"),
   ("USA", "United States"),
   ("US", "United States"),
   ("UK", "United Kingdom"),
   ("Great Britain", "United Kingdom"),
   ("Britain", "United Kingdom"),
   ("Korea, Republic of", "South Korea"),
   ("Republic of Korea", "South Korea"),
   ("Korea, Democratic People's Republic of", "North Korea"),
   ("Russian Federation", "Russia"),
   ("Iran, Islamic Republic of", "Iran"),
   ("Syrian Arab Republic", "Syria"),
   ("Venezuela, Bolivarian Republic of", "Venezuela"),
   ("Bolivia, Plurinational State of", "Bolivia"),
   ("Tanzania, United Republic of", "Tanzania")]

/-- `getCybersecurityData(countryName)` (src/script.js lines 282-314):
direct key match first; on a miss, map the name through `variations` and
look up the mapped name; `null` (here `none`) when that misses too. -/
def getCybersecurityData (data : CyberData) (countryName : String) :
    Option ComplianceRecord :=
  match List.lookup countryName data with
  | some r => some r
  | none =>
    match List.lookup countryName variations with
    | some mapped =>
      match List.lookup mapped data with
      | some r => some r
      | none => none
    | none => none

/-- Claim C4: record lookup is a total two-step lookup — direct match,
then exactly one retry through the alias table, `none` on any remaining
miss; `"USA"` resolves through the alias to a record keyed
`"United States"`, and `"Atlantis"` (no record, no alias) yields `none`. -/
theorem getCybersecurityData_two_step :
    (∀ (data : CyberData) (countryName : String),
        getCybersecurityData data countryName =
          (List.lookup countryName data).orElse fun _ =>
            (List.lookup countryName variations).bind fun mapped =>
              List.lookup mapped data) ∧
      (∀ (data : CyberData) (r : ComplianceRecord),
          List.lookup "USA" data = none →
          List.lookup "United States" data = some r →
          getCybersecurityData data "USA" = some r) ∧
      (∀ data : CyberData,
          List.lookup "Atlantis" data = none →
          getCybersecurityData data "Atlantis" = none) := by
  have hstep : ∀ (data : CyberData) (countryName : String),
      getCybersecurityData data countryName =
        (List.lookup countryName data).orElse fun _ =>
          (List.lookup countryName variations).bind fun mapped =>
            List.lookup mapped data := by
    intro data countryName
    unfold getCybersecurityData
    cases List.lookup countryName data <;>
      cases h : List.lookup countryName variations <;>
        simp [Option.orElse, h]
    cases List.lookup _ data <;> simp
  refine ⟨hstep, ?_, ?_⟩
  · intro data r h1 h2
    rw [hstep, h1, show List.lookup "USA" variations = some "United States" from by decide]
    simp [Option.orElse, h2]
  · intro data h1
    rw [hstep, h1, show List.lookup "Atlantis" variations = none from by decide]
    simp [Option.orElse]

/-- A sample record, as would be loaded for the United States. -/
def usRecord : ComplianceRecord :=
  { cybersecurityStandard := some "NIST", complianceStatus := some "compliant",
    unitsInCountry := some "12", complianceScore := some "97",
    certifications := ["ISO27001"], lastAuditDate := some "2024-01-01" }

/-- Witness for C4: with the single record keyed `"United States"`,
looking up `"USA"` returns it, and looking up `"Atlantis"` in an empty
model returns `none`. -/
theorem getCybersecurityData_two_step_witness :
    getCybersecurityData [("United States", usRecord)] "USA" = some usRecord ∧
      getCybersecurityData [] "Atlantis" = none :=
  ⟨getCybersecurityData_two_step.2.1 [("United States", usRecord)] usRecord
      (by decide) (by decide),
    getCybersecurityData_two_step.2.2 [] (by decide)⟩

/-- `getCountryColor(countryName)` (src/script.js lines 317-324),
`Option`-valued: `none` models the `TypeError` thrown by the unguarded
`this.complianceCategories.unknown.color` on line 321 when the record's
status has no category and no `"unknown"` category exists.  The
no-record path (line 323) instead uses optional chaining and the
`|| "#e0e0e0"` default, so it never throws; an empty-string `color` is
falsy there and also falls back to the default. -/
def getCountryColor (data : CyberData) (cats : Categories) (countryName : String) :
    Option String :=
  match getCybersecurityData data countryName with
  | some r =>
    match r.complianceStatus with
    | some status =>
      match List.lookup status cats with
      | some category => some category.color
      | none =>
        match List.lookup "unknown" cats with
        | some u => some u.color
        | none => none
    | none => getCountryColorNoData cats
  | none => getCountryColorNoData cats
where
  /-- Line 323: `this.complianceCategories.unknown?.color || "#e0e0e0"`. -/
  getCountryColorNoData (cats : Categories) : Option String :=
    match List.lookup "unknown" cats with
    | some u => if u.color = "" then some "#e0e0e0" else some u.color
    | none => some "#e0e0e0"

/-- A record whose status has no category in the test category set. -/
def orphanRecord : ComplianceRecord :=
  { cybersecurityStandard := none, complianceStatus := some "compliant",
    unitsInCountry := none, complianceScore := none,
    certifications := [], lastAuditDate := none }

/-- Claim C3 (code bug): `getCountryColor` is NOT total.  For a country
whose record's status has no category, when the `"unknown"` category is
also absent, line 321 reads `.color` of `undefined` and throws
(modelled: `none`) instead of returning the claimed `"#e0e0e0"` default;
the triple fallback exists only on the no-record path, which does return
the `"unknown"` color and then `"#e0e0e0"`. -/
theorem getCountryColor_crash_eval :
    getCountryColor [("France", orphanRecord)] [] "France" = none ∧
      getCountryColor [("France", orphanRecord)] [] "France" ≠ some "#e0e0e0" ∧
      getCountryColor [] [] "Atlantis" = some "#e0e0e0" ∧
      getCountryColor [] [("unknown", ⟨"#9E9E9E", "Unknown", ""⟩)] "Atlantis" =
        some "#9E9E9E" := by
  refine ⟨by decide, by decide, by decide, by decide⟩

/-- A geographic feature: an identity (its index in the loaded topology)
plus its `properties` bag. -/
structure Feature where
  fid : Nat
  props : FeatureProps
deriving DecidableEq, Repr

/-- The feature filter of `drawCountries()` (src/script.js lines
234-242): only features whose resolved name differs from `"Antarctica"`
get a `.country` path appended (and thus styling and hover/click
handlers). -/
def drawCountries (features : List Feature) : List Feature :=
  features.filter fun f => getCountryName f.props != "Antarctica"

/-- Claim C10: `drawCountries` keeps exactly the features whose resolved
name is not `"Antarctica"`; a feature resolving to `"Antarctica"` is
never drawn, styled, or given hover/click handlers. -/
theorem drawCountries_filters_antarctica (features : List Feature) (f : Feature) :
    f ∈ drawCountries features ↔
      f ∈ features ∧ getCountryName f.props ≠ "Antarctica" := by
  simp [drawCountries, List.mem_filter]

/-- The selection-relevant state: the drawn `.country` paths (in DOM
order), the sublist of them carrying the `selected` class, and the
stored `this.selectedCountry`. -/
structure SelectionState where
  drawn : List Feature
  markedSelected : List Feature
  selectedCountry : Option Feature
deriving DecidableEq, Repr

/-- The state right after `drawCountries()`: paths for every
non-Antarctica feature, nothing selected. -/
def initSelection (allFeatures : List Feature) : SelectionState :=
  { drawn := drawCountries allFeatures, markedSelected := [], selectedCountry := none }

/-- `onCountryClick(event, d)` (src/script.js lines 369-388): clear the
`selected` class from every `.country` path, set it on the clicked path
(so `d` must be one of the drawn features for the event to exist), and
store the clicked feature. -/
def onCountryClick (s : SelectionState) (d : Feature) : SelectionState :=
  { s with markedSelected := [d], selectedCountry := some d }

/-- `selectCountryByData(countryData)` (src/script.js lines 551-569),
reached from a search result: clear the `selected` class everywhere,
then set it on the drawn paths whose datum equals `countryData` — which
is NO path when the feature was filtered out of rendering — and store
the feature. -/
def selectCountryByData (s : SelectionState) (d : Feature) : SelectionState :=
  { s with markedSelected := s.drawn.filter fun f => f == d,
           selectedCountry := some d }

/-- `deselectCountry()` (src/script.js lines 433-440): clear the
`selected` class everywhere and drop the stored selection. -/
def deselectCountry (s : SelectionState) : SelectionState :=
  { s with markedSelected := [], selectedCountry := none }

/-- The Antarctica feature of the loaded topology. -/
def antarcticaFeature : Feature :=
  ⟨0, ⟨some "Antarctica", none, none, none, none, none⟩⟩

/-- A drawn feature. -/
def franceFeature : Feature :=
  ⟨1, ⟨some "France", none, none, none, none, none⟩⟩

/-- Counterexample to claim C9: selecting France by click and then
Antarctica via a search result (search matches over the unfiltered
feature list, but Antarctica got no `.country` path) leaves ZERO
features marked selected, not exactly one, while the stored selection is
Antarctica. -/
theorem selection_not_exclusive_cex :
    (selectCountryByData
        (onCountryClick (initSelection [antarcticaFeature, franceFeature]) franceFeature)
        antarcticaFeature).markedSelected = [] ∧
      (selectCountryByData
          (onCountryClick (initSelection [antarcticaFeature, franceFeature]) franceFeature)
          antarcticaFeature).markedSelected ≠ [antarcticaFeature] ∧
      (selectCountryByData
          (onCountryClick (initSelection [antarcticaFeature, franceFeature]) franceFeature)
          antarcticaFeature).selectedCountry = some antarcticaFeature := by
  refine ⟨by decide, by decide, by decide⟩

/-- Filtering a duplicate-free list for one of its members yields
exactly that member. -/
theorem filter_mem_nodup_eq_singleton (l : List Feature) (b : Feature)
    (hnd : l.Nodup) (hb : b ∈ l) : (l.filter fun f => f == b) = [b] := by
  induction l with
  | nil => cases hb
  | cons x xs ih =>
    rcases List.nodup_cons.mp hnd with ⟨hx, hxs⟩
    rcases List.mem_cons.mp hb with rfl | hb'
    · have hfe : (xs.filter fun f => f == b) = [] := by
        rw [List.filter_eq_nil_iff]
        intro a ha
        simp only [beq_iff_eq]
        exact fun hax => hx (hax ▸ ha)
      simp [List.filter_cons, hfe]
    · have hxb : (x == b) = false := by
        simp only [beq_eq_false_iff_ne]
        exact fun hxb => hx (hxb ▸ hb')
      simp [List.filter_cons, hxb, ih hxs hb']

/-- Claim C9 amended: after any prior selection (click of `a`), clicking
feature `b`, or selecting `b` through search when `b` is actually drawn,
leaves exactly the one feature `b` marked selected; a subsequent
deselect leaves zero features marked and clears the stored selection.
(Search-selecting a feature excluded from rendering, such as Antarctica,
instead marks zero features — see the counterexample.) -/
theorem selection_exclusive (s : SelectionState) (a b : Feature)
    (hnd : s.drawn.Nodup) (hb : b ∈ s.drawn) :
    (onCountryClick (onCountryClick s a) b).markedSelected = [b] ∧
      (onCountryClick (onCountryClick s a) b).selectedCountry = some b ∧
      (selectCountryByData (onCountryClick s a) b).markedSelected = [b] ∧
      (selectCountryByData (onCountryClick s a) b).selectedCountry = some b ∧
      (deselectCountry (selectCountryByData (onCountryClick s a) b)).markedSelected = [] ∧
      (deselectCountry (selectCountryByData (onCountryClick s a) b)).selectedCountry = none := by
  refine ⟨rfl, rfl, ?_, rfl, rfl, rfl⟩
  exact filter_mem_nodup_eq_singleton s.drawn b hnd hb

/-- Witness for the amended C9: selecting Germany after France in a
three-feature world leaves exactly Germany marked; deselecting clears
everything. -/
theorem selection_exclusive_witness :
    (initSelection [antarcticaFeature, franceFeature, ⟨2, ⟨some "Germany", none, none, none, none, none⟩⟩]).drawn.Nodup ∧
      (onCountryClick
          (onCountryClick
            (initSelection [antarcticaFeature, franceFeature,
              ⟨2, ⟨some "Germany", none, none, none, none, none⟩⟩]) franceFeature)
          ⟨2, ⟨some "Germany", none, none, none, none, none⟩⟩).markedSelected =
        [⟨2, ⟨some "Germany", none, none, none, none, none⟩⟩] :=
  ⟨by decide,
    (selection_exclusive
        (initSelection [antarcticaFeature, franceFeature,
          ⟨2, ⟨some "Germany", none, none, none, none, none⟩⟩])
        franceFeature ⟨2, ⟨some "Germany", none, none, none, none, none⟩⟩
        (by decide) (by decide)).1⟩

end WorldMap
